import Mathlib

/-!
Verification of the CSQLite3 conditional-include shims.

Each platform variant directory (ios, macos, tvos-simulator, watchos,
xcode-macos) holds one file `CSQLite3Shim.h` consisting of an include guard
and nested preprocessor conditionals that select exactly one absolute path
to a platform SDK copy of `sqlite3.h`.  We embed that selection logic as a
total function from the compile-time inputs — the platform variant, whether
the toolchain defines both `__APPLE__` and `__MACH__`, and the value of
`__clang_major__` (0 when the macro is undefined, per C preprocessor
semantics) — to the selected path string.
-/

namespace CSQLite3

/-- Embeds the five variant directories of the repository: each one contains
its own copy of `CSQLite3Shim.h`, and the build system's choice of directory
selects which copy is compiled. -/
inductive Variant where
  | ios
  | macos
  | tvosSimulator
  | watchos
  | xcodeMacos
deriving DecidableEq, Repr

/-- Path literal at ios line 11, macos lines 10 and 13, tvos-simulator
line 11, watchos line 11 and xcode-macos line 19 of `CSQLite3Shim.h`. -/
def usrIncludePath : String :=
  "/usr/include/sqlite3.h"

/-- Path literal at line 6 of `ios/CSQLite3Shim.h`. -/
def iosBetaPath : String :=
  "/Applications/Xcode-beta.app/Contents/Developer/Platforms/iPhoneOS.platform/Developer/SDKs/iPhoneOS.sdk/usr/include/sqlite3.h"

/-- Path literal at line 8 of `ios/CSQLite3Shim.h`. -/
def iosStdPath : String :=
  "/Applications/Xcode.app/Contents/Developer/Platforms/iPhoneOS.platform/Developer/SDKs/iPhoneOS.sdk/usr/include/sqlite3.h"

/-- Path literal at line 6 of `macos/CSQLite3Shim.h` and line 7 of
`xcode-macos/CSQLite3Shim.h`. -/
def macBetaPath : String :=
  "/Applications/Xcode-beta.app/Contents/Developer/Platforms/MacOSX.platform/Developer/SDKs/MacOSX.sdk/usr/include/sqlite3.h"

/-- Path literal at line 8 of `macos/CSQLite3Shim.h` and line 9 of
`xcode-macos/CSQLite3Shim.h`. -/
def macStdPath : String :=
  "/Applications/Xcode.app/Contents/Developer/Platforms/MacOSX.platform/Developer/SDKs/MacOSX.sdk/usr/include/sqlite3.h"

/-- Path literal at line 6 of `tvos-simulator/CSQLite3Shim.h`. -/
def tvBetaPath : String :=
  "/Applications/Xcode-beta.app/Contents/Developer/Platforms/AppleTVSimulator.platform/Developer/SDKs/AppleTVSimulator.sdk/usr/include/sqlite3.h"

/-- Path literal at line 8 of `tvos-simulator/CSQLite3Shim.h`. -/
def tvStdPath : String :=
  "/Applications/Xcode.app/Contents/Developer/Platforms/AppleTVSimulator.platform/Developer/SDKs/AppleTVSimulator.sdk/usr/include/sqlite3.h"

/-- Path literal at line 6 of `watchos/CSQLite3Shim.h`. -/
def watchBetaPath : String :=
  "/Applications/Xcode-beta.app/Contents/Developer/Platforms/WatchOS.platform/Developer/SDKs/WatchOS.sdk/usr/include/sqlite3.h"

/-- Path literal at line 8 of `watchos/CSQLite3Shim.h`. -/
def watchStdPath : String :=
  "/Applications/Xcode.app/Contents/Developer/Platforms/WatchOS.platform/Developer/SDKs/WatchOS.sdk/usr/include/sqlite3.h"

/-- Path literal inside the commented-out block at line 15 of
`xcode-macos/CSQLite3Shim.h`; it sits in a block comment, so no active
branch ever includes it. -/
def xcode83Path : String :=
  "/Applications/Xcode 8.3.app/Contents/Developer/Platforms/MacOSX.platform/Developer/SDKs/MacOSX.sdk/usr/include/sqlite3.h"

/-- Embeds the conditional blocks of the five `CSQLite3Shim.h` copies.
For each variant, `appleMach` is `defined(__APPLE__) && defined(__MACH__)`
and `clangMajor` is the value of `__clang_major__` in preprocessor
arithmetic (an undefined macro evaluates to 0, so a non-clang Apple
toolchain yields 0).  Branch by branch:
ios lines 4-12 (`>= 9` then else, outer else `/usr/include`);
macos lines 4-14 (`>= 10`, `elif >= 9`, else, outer else);
tvos-simulator lines 4-12 (`>= 11` then else, outer else);
watchos lines 4-12 (`>= 10` then else, outer else);
xcode-macos lines 4-20: the tokens `__clang_major__ >= 9` after `#else` on
line 8 are extraneous — a preprocessor `#else` takes no condition — so the
inner conditional is two-way (`>= 10` then else), and lines 11-17 are a
block comment; the outer else on lines 18-19 gives `/usr/include`. -/
def resolve : Variant → Bool → Nat → String
  | .ios, true, v => if v ≥ 9 then iosBetaPath else iosStdPath
  | .ios, false, _ => usrIncludePath
  | .macos, true, v =>
      if v ≥ 10 then macBetaPath
      else if v ≥ 9 then macStdPath
      else usrIncludePath
  | .macos, false, _ => usrIncludePath
  | .tvosSimulator, true, v => if v ≥ 11 then tvBetaPath else tvStdPath
  | .tvosSimulator, false, _ => usrIncludePath
  | .watchos, true, v => if v ≥ 10 then watchBetaPath else watchStdPath
  | .watchos, false, _ => usrIncludePath
  | .xcodeMacos, true, v => if v ≥ 10 then macBetaPath else macStdPath
  | .xcodeMacos, false, _ => usrIncludePath

/-- The candidate paths explicitly listed in the active (non-commented)
conditional branches of each variant's `CSQLite3Shim.h`. -/
def candidates : Variant → List String
  | .ios => [iosBetaPath, iosStdPath, usrIncludePath]
  | .macos => [macBetaPath, macStdPath, usrIncludePath]
  | .tvosSimulator => [tvBetaPath, tvStdPath, usrIncludePath]
  | .watchos => [watchBetaPath, watchStdPath, usrIncludePath]
  | .xcodeMacos => [macBetaPath, macStdPath, usrIncludePath]

/-- State of one translation unit while preprocessing: whether the include
guard macro `__CSQLITE3_SHIM_H__` has been defined (lines 1-2 of every
variant), and the list of header paths included so far. -/
structure ShimState where
  guardDefined : Bool
  included : List String
deriving DecidableEq, Repr

/-- Embeds processing one `#include "CSQLite3Shim.h"` of a variant's shim:
if the guard macro is already defined the `#ifndef` on line 1 skips the
whole body; otherwise line 2 defines the guard and the conditional block
includes exactly the one resolved path. -/
def processShim (st : ShimState) (variant : Variant) (appleMach : Bool)
    (clangMajor : Nat) : ShimState :=
  if st.guardDefined then st
  else { guardDefined := true,
         included := st.included ++ [resolve variant appleMach clangMajor] }

/-- A build host, seen by the preprocessor only through which files exist. -/
structure BuildHost where
  fileExists : String → Bool

/-- Outcome of the textual inclusion: either the chosen header was found, or
the build fails with a missing-file error naming the chosen path. -/
inductive IncludeResult where
  | ok (path : String)
  | missingFile (path : String)
deriving DecidableEq, Repr

/-- The path named by an inclusion outcome. -/
def IncludeResult.path : IncludeResult → String
  | .ok p => p
  | .missingFile p => p

/-- Embeds the `#include` directive of the selected branch: the path is
computed from the compile-time inputs alone, then the single lookup on the
host either succeeds or fails fatally — the shim has no alternate search
path, retry, or fallback. -/
def includeOutcome (host : BuildHost) (variant : Variant) (appleMach : Bool)
    (clangMajor : Nat) : IncludeResult :=
  let p := resolve variant appleMach clangMajor
  if host.fileExists p then .ok p else .missingFile p

/-- A build host on which no file exists. -/
def emptyHost : BuildHost := ⟨fun _ => false⟩

/-- A build host on which every file exists. -/
def fullHost : BuildHost := ⟨fun _ => true⟩

/-- The platform families the spec distinguishes among the SDK paths. -/
inductive PlatformFamily where
  | phone
  | tvSimulator
  | wearable
  | desktop
deriving DecidableEq, Repr

/-- True when `pat` is a prefix of `l`, comparing characters. -/
def charsHavePre : List Char → List Char → Bool
  | _, [] => true
  | [], _ :: _ => false
  | c :: cs, d :: ds => c == d && charsHavePre cs ds

/-- True when `pat` occurs as a contiguous run inside `l`. -/
def charsHaveSub (l pat : List Char) : Bool :=
  match l with
  | [] => pat.isEmpty
  | _ :: cs => charsHavePre l pat || charsHaveSub cs pat

/-- True when `marker` occurs as a substring of `p`. -/
def mentions (p marker : String) : Bool :=
  charsHaveSub p.data marker.data

/-- Classifies a path by the SDK platform directory it points into;
paths that point into no phone, TV-simulator or wearable platform
directory (the MacOSX SDK paths and `/usr/include`) are desktop paths. -/
def pathFamily (p : String) : PlatformFamily :=
  if mentions p ("iPhoneOS.platform") then .phone
  else if mentions p ("AppleTVSimulator.platform") then .tvSimulator
  else if mentions p ("WatchOS.platform") then .wearable
  else .desktop

/-- True for paths into an Apple Xcode SDK layout under `/Applications`,
the only vendor-SDK layout any shim branch names. -/
def isAppleSDKPath (p : String) : Bool :=
  charsHavePre p.data ("/Applications/Xcode").data

/-- Deletes every occurrence of the five characters `-beta` from a
character list. -/
def dropBeta : List Char → List Char
  | '-' :: 'b' :: 'e' :: 't' :: 'a' :: rest => dropBeta rest
  | c :: rest => c :: dropBeta rest
  | [] => []

/-- Maps a pre-release (Xcode-beta.app) SDK path to the release (Xcode.app)
layout of the same SDK by deleting the `-beta` marker; release paths
contain no such marker and are unchanged. -/
def releaseLayout (p : String) : String :=
  String.mk (dropBeta p.data)

/-- The initial preprocessing state: guard not yet defined, nothing
included. -/
def initState : ShimState := ⟨false, []⟩

/-- C1: for every platform variant and every combination of compile-time
inputs (Apple toolchain presence, compiler major version), the resolver
deterministically selects exactly one include path — processing the shim
from the initial state includes exactly the one resolved path — and that
path is one of the candidate paths explicitly listed in that variant's
conditionals. -/
theorem resolve_exactly_one_candidate (variant : Variant) (appleMach : Bool)
    (clangMajor : Nat) :
    (processShim initState variant appleMach clangMajor).included
      = [resolve variant appleMach clangMajor]
    ∧ resolve variant appleMach clangMajor ∈ candidates variant := by
  constructor
  · simp [processShim, initState]
  · cases variant <;> cases appleMach <;> simp only [resolve, candidates]
    all_goals repeat' split
    all_goals simp

/-- C2: on an Apple toolchain with a compiler major version below every
threshold listed in a variant's conditionals, the resolver selects the
lowest-priority path for that variant: `/usr/include/sqlite3.h` for macos
(version below 9), the standard Xcode.app iPhoneOS SDK path for ios
(version below 9), and the standard (non-beta) SDK path for tvos-simulator
(below 11), watchos (below 10) and xcode-macos (below 9). -/
theorem low_version_selects_lowest_priority (v : Nat) :
    (v < 9 → resolve Variant.macos true v = usrIncludePath)
    ∧ (v < 9 → resolve Variant.ios true v = iosStdPath)
    ∧ (v < 11 → resolve Variant.tvosSimulator true v = tvStdPath)
    ∧ (v < 10 → resolve Variant.watchos true v = watchStdPath)
    ∧ (v < 9 → resolve Variant.xcodeMacos true v = macStdPath) := by
  refine ⟨fun h => ?_, fun h => ?_, fun h => ?_, fun h => ?_, fun h => ?_⟩ <;>
    simp only [resolve] <;>
    (repeat rw [if_neg (by omega)])

/-- Witness for C2 at compiler major version 8, below every threshold. -/
theorem low_version_selects_lowest_priority_witness :
    resolve Variant.macos true 8 = usrIncludePath
    ∧ resolve Variant.ios true 8 = iosStdPath
    ∧ resolve Variant.tvosSimulator true 8 = tvStdPath
    ∧ resolve Variant.watchos true 8 = watchStdPath
    ∧ resolve Variant.xcodeMacos true 8 = macStdPath :=
  ⟨(low_version_selects_lowest_priority 8).1 (by decide),
   (low_version_selects_lowest_priority 8).2.1 (by decide),
   (low_version_selects_lowest_priority 8).2.2.1 (by decide),
   (low_version_selects_lowest_priority 8).2.2.2.1 (by decide),
   (low_version_selects_lowest_priority 8).2.2.2.2 (by decide)⟩

/-- C3: holding the variant and the toolchain fixed, varying only the
compiler major version never changes the platform family of the selected
path. -/
theorem version_never_changes_family (variant : Variant) (appleMach : Bool)
    (v1 v2 : Nat) :
    pathFamily (resolve variant appleMach v1)
      = pathFamily (resolve variant appleMach v2) := by
  cases variant <;> cases appleMach <;> simp only [resolve]
  all_goals repeat' split
  all_goals decide

/-- C4: compiler major version 11 on the tvos-simulator variant selects the
Xcode-beta AppleTVSimulator SDK path, version 9 selects the standard Xcode
AppleTVSimulator SDK path, and a non-Apple toolchain selects
`/usr/include/sqlite3.h` on every variant. -/
theorem tv_scenarios_and_nonapple_default :
    resolve Variant.tvosSimulator true 11 = tvBetaPath
    ∧ resolve Variant.tvosSimulator true 9 = tvStdPath
    ∧ ∀ (variant : Variant) (v : Nat),
        resolve variant false v = usrIncludePath := by
  refine ⟨rfl, rfl, fun variant v => ?_⟩
  cases variant <;> rfl

/-- C5: when the toolchain does not define both `__APPLE__` and `__MACH__`,
the final default branch of every variant selects `/usr/include/sqlite3.h`,
whatever the compiler major version. -/
theorem nonapple_selects_usr_include (variant : Variant) (v : Nat) :
    resolve variant false v = usrIncludePath := by
  cases variant <;> rfl

/-- Counterexample to C6 as stated: on the macos variant with an Apple
toolchain, compiler major version 8 selects `/usr/include/sqlite3.h`, which
is not an Apple-vendor Xcode SDK path, while version 9 selects one — so two
compiler major versions do not always both select Apple SDK paths. -/
theorem macos_clang8_not_sdk_path :
    isAppleSDKPath (resolve Variant.macos true 8) = false
    ∧ isAppleSDKPath (resolve Variant.macos true 9) = true := by
  decide

/-- C6 (amended): on an Apple toolchain, for every variant, any two
compiler major versions at least 9 select paths that are both Apple-vendor
Xcode SDK paths differing at most in the pre-release (Xcode-beta.app)
versus release (Xcode.app) layout; on the macos variant a version below 9
instead selects `/usr/include/sqlite3.h`, which is not an SDK path. -/
theorem version_selects_layout_only (variant : Variant) (v1 v2 : Nat)
    (h1 : 9 ≤ v1) (h2 : 9 ≤ v2) :
    isAppleSDKPath (resolve variant true v1) = true
    ∧ isAppleSDKPath (resolve variant true v2) = true
    ∧ releaseLayout (resolve variant true v1)
        = releaseLayout (resolve variant true v2) := by
  cases variant <;> simp only [resolve]
  all_goals repeat' split
  all_goals first
    | (exfalso; omega)
    | (refine ⟨by decide, by decide, by decide⟩)

/-- Witness for C6 (amended) on the tvos-simulator variant at versions 9
and 11, which take the two different branches. -/
theorem version_selects_layout_only_witness :
    isAppleSDKPath (resolve Variant.tvosSimulator true 9) = true
    ∧ isAppleSDKPath (resolve Variant.tvosSimulator true 11) = true
    ∧ releaseLayout (resolve Variant.tvosSimulator true 9)
        = releaseLayout (resolve Variant.tvosSimulator true 11) :=
  version_selects_layout_only Variant.tvosSimulator 9 11 (by decide) (by decide)

/-- C7: the selected path depends only on the compile-time inputs, never on
the build host's filesystem: any two hosts yield outcomes naming the same
path, and when the selected header is absent the outcome is the
missing-file error naming exactly the resolved path — no alternate or
fallback path. -/
theorem path_host_independent_and_fatal (host1 host2 : BuildHost)
    (variant : Variant) (appleMach : Bool) (v : Nat)
    (h : host1.fileExists (resolve variant appleMach v) = false) :
    includeOutcome host1 variant appleMach v
      = IncludeResult.missingFile (resolve variant appleMach v)
    ∧ (includeOutcome host1 variant appleMach v).path
        = (includeOutcome host2 variant appleMach v).path := by
  constructor
  · simp [includeOutcome, h]
  · simp only [includeOutcome]
    split <;> split <;> rfl

/-- Witness for C7: ios shim, Apple toolchain with clang 9, on a host where
no file exists versus one where every file exists. -/
theorem path_host_independent_and_fatal_witness :
    includeOutcome emptyHost Variant.ios true 9
      = IncludeResult.missingFile iosBetaPath
    ∧ (includeOutcome emptyHost Variant.ios true 9).path
        = (includeOutcome fullHost Variant.ios true 9).path :=
  path_host_independent_and_fatal emptyHost fullHost Variant.ios true 9 rfl

/-- C8: in the xcode-macos variant the Apple-toolchain conditional is
effectively two-way — the tokens after `#else` on line 8 are dead — so
every Apple build with compiler major version below 10, including versions
below 9, selects the standard Xcode.app macOS SDK path, and neither
`/usr/include/sqlite3.h` nor the commented-out Xcode 8.3 path is ever
selected on an Apple toolchain in this variant. -/
theorem xcodeMacos_effectively_two_way (v : Nat) :
    (v < 10 → resolve Variant.xcodeMacos true v = macStdPath)
    ∧ resolve Variant.xcodeMacos true v ≠ usrIncludePath
    ∧ resolve Variant.xcodeMacos true v ≠ xcode83Path := by
  simp only [resolve]
  by_cases h : v ≥ 10
  · rw [if_pos h]
    exact ⟨fun hlt => absurd h (by omega), by decide, by decide⟩
  · rw [if_neg h]
    exact ⟨fun _ => rfl, by decide, by decide⟩

/-- Witness for C8 at compiler major version 8, below both 10 and the dead
9 threshold. -/
theorem xcodeMacos_effectively_two_way_witness :
    resolve Variant.xcodeMacos true 8 = macStdPath
    ∧ resolve Variant.xcodeMacos true 8 ≠ usrIncludePath
    ∧ resolve Variant.xcodeMacos true 8 ≠ xcode83Path :=
  ⟨(xcodeMacos_effectively_two_way 8).1 (by decide),
   (xcodeMacos_effectively_two_way 8).2.1,
   (xcodeMacos_effectively_two_way 8).2.2⟩

/-- C9: every reachable branch of every variant includes an absolute path
whose final component is `sqlite3.h`: the resolved path starts with `/` and
ends with `/sqlite3.h`. -/
theorem resolved_path_is_absolute_sqlite3_h (variant : Variant)
    (appleMach : Bool) (v : Nat) :
    charsHavePre (resolve variant appleMach v).data ("/").data = true
    ∧ charsHavePre (resolve variant appleMach v).data.reverse
        ("/sqlite3.h").data.reverse = true := by
  cases variant <;> cases appleMach <;> simp only [resolve]
  all_goals repeat' split
  all_goals decide

/-- C10: inclusion is idempotent within a translation unit: thanks to the
`__CSQLITE3_SHIM_H__` guard, processing the shim a second time from any
state changes nothing, so the inclusions visible after two inclusions equal
those after one. -/
theorem shim_idempotent (st : ShimState) (variant : Variant)
    (appleMach : Bool) (v : Nat) :
    processShim (processShim st variant appleMach v) variant appleMach v
      = processShim st variant appleMach v := by
  by_cases h : st.guardDefined <;> simp [processShim, h]

end CSQLite3
